import Mathlib

/-!
Verification development for the kdev CLI (src/main.go).

The Go program manages "devpod" resources in a Kubernetes cluster: `up` creates a
PersistentVolumeClaim (StorageClaim), a ServiceAccount (Identity) and a Pod
(Workload) in that order; `attach` opens an interactive exec session; `rm`
deletes the Pod and optionally the PVC.  The definitions below are a shallow
embedding of `cmdUp`, `cmdRM` and `cmdAttach` from src/main.go, together with a
small model of the cluster control plane (an external collaborator of the
program) so that creation/deletion outcomes and partial-failure behaviour can
be stated.
-/

set_option autoImplicit false

namespace Kdev

/-! ## String machinery mirroring the Go standard library pieces used -/

/-- Character-level split at the first `=`, mirroring Go `strings.SplitN(s, "=", 2)`
for the single-character separator `"="`: returns `none` when the character does
not occur, otherwise the parts before and after its first occurrence. -/
def splitFirstEq : List Char → Option (List Char × List Char)
  | [] => none
  | c :: cs =>
    if c = '=' then some ([], cs)
    else (splitFirstEq cs).map (fun p => (c :: p.1, p.2))

/-- Go `strings.SplitN(s, "=", 2)`: `[s]` when `s` has no `=`, otherwise the part
before the first `=` and everything after it. -/
def goSplitN2 (s : String) : List String :=
  match splitFirstEq s.data with
  | none => [s]
  | some (k, v) => [⟨k⟩, ⟨v⟩]

/-- Whether `needle` is a prefix of the second list (Boolean, character lists). -/
def isPrefixCh : List Char → List Char → Bool
  | [], _ => true
  | _ :: _, [] => false
  | a :: as, b :: bs => a = b && isPrefixCh as bs

/-- Whether `needle` occurs as a contiguous sublist of `hay`. -/
def containsSub (needle : List Char) : List Char → Bool
  | [] => needle.isEmpty
  | c :: rest => isPrefixCh needle (c :: rest) || containsSub needle rest

/-- Go `strings.Contains(s, sub)`. -/
def goContains (s sub : String) : Bool :=
  containsSub sub.data s.data

/-! ## Quantity parsing (external k8s library, modelled from the spec) -/

/-- Decimal digit test on characters. -/
def isDigitCh (c : Char) : Bool :=
  '0' ≤ c && c ≤ '9'

/-- Longest digit run at the front of a character list, and the rest. -/
def spanDigits : List Char → List Char × List Char
  | [] => ([], [])
  | c :: cs =>
    if isDigitCh c then
      let p := spanDigits cs
      (c :: p.1, p.2)
    else ([], c :: cs)

/-- Suffixes accepted by the quantity grammar: none, decimal SI, or binary SI. -/
def validSuffixes : List (List Char) :=
  ["".data, "n".data, "u".data, "m".data, "k".data, "M".data, "G".data,
   "T".data, "P".data, "E".data,
   "Ki".data, "Mi".data, "Gi".data, "Ti".data, "Pi".data, "Ei".data]

/-- Modelled from the spec: "Numeric resource strings (cpu/memory/storage
quantities) are passed through to the cluster client's quantity parser and fail
... on malformed input (e.g., non-numeric suffix)".  The parser itself
(`k8s.io/apimachinery resource.ParseQuantity`) is an external library that is
not part of src/, so its accepted grammar is modelled, simplified to: optional
sign, a nonempty digit run, an optional nonempty fractional digit run, then one
of the known SI/binary suffixes (or no suffix). -/
def isValidQuantity (s : String) : Bool :=
  let cs :=
    match s.data with
    | '+' :: rest => rest
    | '-' :: rest => rest
    | l => l
  let p := spanDigits cs
  if p.1.isEmpty then false
  else
    match p.2 with
    | '.' :: r =>
      let q := spanDigits r
      !q.1.isEmpty && validSuffixes.any (fun suf => suf == q.2)
    | r => validSuffixes.any (fun suf => suf == r)

/-! ## Association-list view of Go `map[string]string` -/

/-- Insert-or-replace on an association list, the observable behaviour of a Go
map assignment `m[k] = v`. -/
def mapUpd : List (String × String) → String → String → List (String × String)
  | [], k, v => [(k, v)]
  | (k', v') :: rest, k, v =>
    if k' = k then (k, v) :: rest else (k', v') :: mapUpd rest k v

/-- Lookup on an association list, the observable behaviour of a Go map read. -/
def getKV : List (String × String) → String → Option String
  | [], _ => none
  | (k', v) :: rest, k => if k' = k then some v else getKV rest k

/-! ## The key=value parsing loops of cmdUp (src/main.go lines 169-195) -/

/-- The label / node-selector loop of `cmdUp`: for each entry, split at the first
`=`; entries where `SplitN` found no separator (one part) are skipped, others
update the map. -/
def applyKVs (init : List (String × String)) : List String → List (String × String)
  | [] => init
  | e :: rest =>
    match goSplitN2 e with
    | [k, v] => applyKVs (mapUpd init k v) rest
    | _ => applyKVs init rest

/-- The env-var loop of `cmdUp`: same split, but appends to an ordered sequence
(a `[]corev1.EnvVar`), keeping duplicates. -/
def parseEnvs : List String → List (String × String)
  | [] => []
  | e :: rest =>
    match goSplitN2 e with
    | [k, v] => (k, v) :: parseEnvs rest
    | _ => parseEnvs rest

/-- An entry is well formed exactly when `SplitN` produced two parts, i.e. the
entry contains the `=` separator. -/
def wellFormedKV (e : String) : Bool :=
  match goSplitN2 e with
  | [_, _] => true
  | _ => false

/-- The key a well-formed entry parses to, `none` for a discarded entry. -/
def kvKeyOf (e : String) : Option String :=
  match goSplitN2 e with
  | [k, _] => some k
  | _ => none

/-! ## Cluster control-plane model

The control plane is an external collaborator (the remote side of the Cluster
Client); it is not part of src/, so its create/delete semantics are modelled
from the spec: creation of an object whose (namespace, name) key already exists
fails with an `AlreadyExists` error, deletion of an absent object fails with a
`NotFound` error, and any other control-plane failure (network, authorization,
admission, ...) is injected through an optional fault parameter. -/

/-- Errors returned by the cluster API.  `message` mirrors the Kubernetes
status-error strings, which is what `cmdUp`'s `strings.Contains(err.Error(),
"already exists")` check inspects. -/
inductive KErr
  | alreadyExists (kind name : String)
  | notFound (kind name : String)
  | other (msg : String)
deriving DecidableEq, Repr

/-- The `err.Error()` string of a cluster error. -/
def KErr.message : KErr → String
  | .alreadyExists kind name => kind ++ " \"" ++ name ++ "\" already exists"
  | .notFound kind name => kind ++ " \"" ++ name ++ "\" not found"
  | .other m => m

/-! ## Resource descriptors built by cmdUp (src/main.go lines 122-141, 150-155, 215-261) -/

/-- The PersistentVolumeClaim descriptor (`pvcSpec`, lines 122-141).  The
namespace field is called `ns` because `namespace` is a Lean keyword. -/
structure PVCSpec where
  name : String
  ns : String
  labels : List (String × String)
  accessModes : List String
  storageRequest : String
  storageClassName : String
  volumeMode : String
deriving DecidableEq, Repr

/-- The ServiceAccount descriptor (`saSpec`, lines 150-155). -/
structure SASpec where
  name : String
  ns : String
deriving DecidableEq, Repr

/-- Per-container resource requirements (lines 198-213): request and limit maps. -/
structure Resources where
  requests : List (String × String)
  limits : List (String × String)
deriving DecidableEq, Repr

/-- The single container of the Pod descriptor (lines 232-251), with its
SecurityContext fields inlined. -/
structure Container where
  name : String
  image : String
  workingDir : String
  command : List String
  env : List (String × String)
  runAsNonRoot : Bool
  allowPrivilegeEscalation : Bool
  capabilitiesDrop : List String
  readOnlyRootFilesystem : Bool
  resources : Resources
  volumeMounts : List (String × String)
deriving DecidableEq, Repr

/-- The Pod descriptor (`podSpec`, lines 215-261), with the PodSecurityContext
fields inlined.  `volumes` maps volume name to the referenced PVC claim name. -/
structure PodSpec where
  name : String
  ns : String
  labels : List (String × String)
  serviceAccountName : String
  runAsUser : Nat
  runAsGroup : Nat
  fsGroup : Nat
  seccompProfileType : String
  nodeSelector : List (String × String)
  containers : List Container
  volumes : List (String × String)
deriving DecidableEq, Repr

/-- The cluster state: the objects currently registered with the control plane. -/
structure Cluster where
  pvcs : List PVCSpec
  sas : List SASpec
  pods : List PodSpec
deriving DecidableEq, Repr

/-- The empty cluster. -/
def emptyCluster : Cluster := ⟨[], [], []⟩

def pvcKeyExists (c : Cluster) (ns name : String) : Bool :=
  c.pvcs.any (fun p => p.ns = ns && p.name = name)

def saKeyExists (c : Cluster) (ns name : String) : Bool :=
  c.sas.any (fun s => s.ns = ns && s.name = name)

def podKeyExists (c : Cluster) (ns name : String) : Bool :=
  c.pods.any (fun p => p.ns = ns && p.name = name)

/-- Modelled from the spec: control-plane `Create` for PVCs. `fault` injects a
control-plane failure other than the existence conflict. -/
def doCreatePVC (fault : Option KErr) (c : Cluster) (p : PVCSpec) :
    Cluster × Except KErr Unit :=
  match fault with
  | some e => (c, .error e)
  | none =>
    if pvcKeyExists c p.ns p.name then
      (c, .error (.alreadyExists "persistentvolumeclaims" p.name))
    else ({ c with pvcs := c.pvcs ++ [p] }, .ok ())

/-- Modelled from the spec: control-plane `Create` for ServiceAccounts. -/
def doCreateSA (fault : Option KErr) (c : Cluster) (s : SASpec) :
    Cluster × Except KErr Unit :=
  match fault with
  | some e => (c, .error e)
  | none =>
    if saKeyExists c s.ns s.name then
      (c, .error (.alreadyExists "serviceaccounts" s.name))
    else ({ c with sas := c.sas ++ [s] }, .ok ())

/-- Modelled from the spec: control-plane `Create` for Pods. -/
def doCreatePod (fault : Option KErr) (c : Cluster) (p : PodSpec) :
    Cluster × Except KErr Unit :=
  match fault with
  | some e => (c, .error e)
  | none =>
    if podKeyExists c p.ns p.name then
      (c, .error (.alreadyExists "pods" p.name))
    else ({ c with pods := c.pods ++ [p] }, .ok ())

/-- Modelled from the spec: control-plane `Delete` for Pods. -/
def doDeletePod (fault : Option KErr) (c : Cluster) (ns name : String) :
    Cluster × Except KErr Unit :=
  match fault with
  | some e => (c, .error e)
  | none =>
    if podKeyExists c ns name then
      ({ c with pods := c.pods.filter (fun p => !(p.ns = ns && p.name = name)) }, .ok ())
    else (c, .error (.notFound "pods" name))

/-- Modelled from the spec: control-plane `Delete` for PVCs. -/
def doDeletePVC (fault : Option KErr) (c : Cluster) (ns name : String) :
    Cluster × Except KErr Unit :=
  match fault with
  | some e => (c, .error e)
  | none =>
    if pvcKeyExists c ns name then
      ({ c with pvcs := c.pvcs.filter (fun p => !(p.ns = ns && p.name = name)) }, .ok ())
    else (c, .error (.notFound "persistentvolumeclaims" name))

/-- Injected control-plane faults for the three creation calls of `up`. -/
structure Faults where
  pvc : Option KErr
  sa : Option KErr
  pod : Option KErr
deriving DecidableEq, Repr

/-- No injected faults: the control plane answers from its state alone. -/
def noFaults : Faults := ⟨none, none, none⟩

/-- The cluster calls a command issues, in order of submission.  Creation events
carry the submitted descriptor. -/
inductive Event
  | createPVC (p : PVCSpec)
  | createSA (s : SASpec)
  | createPod (p : PodSpec)
  | deletePod (ns name : String)
  | deletePVC (ns name : String)
deriving DecidableEq, Repr

/-- Outcome of one CLI invocation: success, an error returned from `RunE`
(printed and exit 1 by `main`), or a Go panic (`resource.MustParse` on
malformed quantities), which crashes the process without returning an error. -/
inductive RunResult
  | ok
  | fail (msg : String)
  | crashed (msg : String)
deriving DecidableEq, Repr

/-! ## cmdUp (src/main.go lines 72-292) -/

/-- The flag values of `kdev up` after cobra parsing (lines 73-88, 274-287),
plus the persistent namespace flag (`flagNamespace`, called `ns` here). -/
structure UpArgs where
  name : String
  template : String
  image : String
  sa : String
  pvc : String
  workdir : String
  labels : List String
  envs : List String
  cpu : String
  memory : String
  nodeSel : List String
  shell : String
  storageClass : String
  storageSize : String
  ns : String
deriving DecidableEq, Repr

/-- Flag-level defaults of `kdev up` (lines 274-287): every optional string flag
defaults to the empty string and every list flag to nil, except `workdir`,
whose flag default is "/workspaces". -/
def mkUpArgs (name image ns : String) : UpArgs :=
  ⟨name, "", image, "", "", "/workspaces", [], [], "", "", [], "", "", "", ns⟩

/-- Line 100-102: ServiceAccount name defaults to "dev-vscode". -/
def saOf (a : UpArgs) : String := if a.sa = "" then "dev-vscode" else a.sa

/-- Line 103-105: PVC name defaults to the pod name. -/
def pvcNameOf (a : UpArgs) : String := if a.pvc = "" then a.name else a.pvc

/-- Lines 109-111 and 307-309: shell defaults to "/bin/bash" in both `up` and
`attach`. -/
def shellRes (s : String) : String := if s = "" then "/bin/bash" else s

/-- The shell `cmdUp` resolves for the container entrypoint. -/
def shellOf (a : UpArgs) : String := shellRes a.shell

/-- Lines 112-114: storage class defaults to "local-path". -/
def storageClassOf (a : UpArgs) : String :=
  if a.storageClass = "" then "local-path" else a.storageClass

/-- Lines 115-117: storage size defaults to "20Gi". -/
def storageSizeOf (a : UpArgs) : String :=
  if a.storageSize = "" then "20Gi" else a.storageSize

/-- The PVC descriptor `cmdUp` builds (lines 122-141). -/
def upPvcSpec (a : UpArgs) : PVCSpec :=
  { name := pvcNameOf a
    ns := a.ns
    labels := [("app", "kdev"), ("kdev/name", a.name)]
    accessModes := ["ReadWriteOnce"]
    storageRequest := storageSizeOf a
    storageClassName := storageClassOf a
    volumeMode := "Filesystem" }

/-- The ServiceAccount descriptor `cmdUp` builds (lines 150-155). -/
def upSaSpec (a : UpArgs) : SASpec :=
  { name := saOf a, ns := a.ns }

/-- The Pod label map (lines 163-174): the fixed marker and name labels, then
the user-supplied entries applied on top. -/
def podLabelsOf (name : String) (labels : List String) : List (String × String) :=
  applyKVs [("app", "kdev"), ("kdev/name", name)] labels

/-- The resource-requirements block (lines 198-213).  Go's `resource.MustParse`
panics on a malformed quantity, modelled as `Except.error` with the panic
message; `cpu` is parsed before `memory`, matching source order. -/
def upResources (a : UpArgs) : Except String Resources :=
  if a.cpu = "" ∧ a.memory = "" then .ok ⟨[], []⟩
  else
    match (if a.cpu = "" then Except.ok (Resources.mk [] [])
           else if isValidQuantity a.cpu then
             Except.ok ⟨[("cpu", a.cpu)], [("cpu", a.cpu)]⟩
           else Except.error ("cannot parse '" ++ a.cpu ++ "'")) with
    | .error m => .error m
    | .ok r1 =>
      if a.memory = "" then .ok r1
      else if isValidQuantity a.memory then
        .ok ⟨r1.requests ++ [("memory", a.memory)], r1.limits ++ [("memory", a.memory)]⟩
      else .error ("cannot parse '" ++ a.memory ++ "'")

/-- The resources block as a total function (its value on the paths where
`cmdUp` did not panic). -/
def upResourcesD (a : UpArgs) : Resources :=
  match upResources a with
  | .ok r => r
  | .error _ => ⟨[], []⟩

/-- The Pod descriptor `cmdUp` builds (lines 215-261). -/
def upPod (a : UpArgs) (res : Resources) : PodSpec :=
  { name := a.name
    ns := a.ns
    labels := podLabelsOf a.name a.labels
    serviceAccountName := saOf a
    runAsUser := 1000
    runAsGroup := 1000
    fsGroup := 1000
    seccompProfileType := "RuntimeDefault"
    nodeSelector := applyKVs [] a.nodeSel
    containers := [{ name := "dev"
                     image := a.image
                     workingDir := a.workdir
                     command := [shellOf a, "-lc", "while true; do sleep 3600; done"]
                     env := parseEnvs a.envs
                     runAsNonRoot := true
                     allowPrivilegeEscalation := false
                     capabilitiesDrop := ["ALL"]
                     readOnlyRootFilesystem := false
                     resources := res
                     volumeMounts := [("work", a.workdir)] }]
    volumes := [("work", pvcNameOf a)] }

/-- The quantity parsing and Pod phase of `cmdUp` (lines 163-267): parse the
labels/selector/env lists, parse cpu/memory (panicking on malformed input,
after the PVC and ServiceAccount calls already happened), build the Pod
descriptor and submit it; any Pod creation failure is returned. -/
def upPodPhase (a : UpArgs) (f : Faults) (c : Cluster) (tr : List Event) :
    Cluster × List Event × RunResult :=
  match upResources a with
  | .error m => (c, tr, .crashed m)
  | .ok res =>
    match doCreatePod f.pod c (upPod a res) with
    | (c1, .error e) =>
      (c1, tr ++ [.createPod (upPod a res)], .fail ("failed to create Pod: " ++ e.message))
    | (c1, .ok _) => (c1, tr ++ [.createPod (upPod a res)], .ok)

/-- `cmdUp`'s `RunE` (lines 93-271): validate name and image, apply defaults,
parse the storage size while building the PVC descriptor (a malformed size
panics before any cluster call), create the PVC (any failure is returned),
create the ServiceAccount (only a failure whose message contains "already
exists" is swallowed, line 158), then run the Pod phase. -/
def upRun (a : UpArgs) (f : Faults) (c : Cluster) : Cluster × List Event × RunResult :=
  if a.name = "" then (c, [], .fail "--name is required")
  else if a.image = "" then (c, [], .fail "--image is required")
  else if isValidQuantity (storageSizeOf a) = false then
    (c, [], .crashed ("cannot parse '" ++ storageSizeOf a ++ "'"))
  else
    match doCreatePVC f.pvc c (upPvcSpec a) with
    | (c1, .error e) =>
      (c1, [.createPVC (upPvcSpec a)], .fail ("failed to create PVC: " ++ e.message))
    | (c1, .ok _) =>
      match doCreateSA f.sa c1 (upSaSpec a) with
      | (c2, .error e) =>
        if goContains e.message "already exists" then
          upPodPhase a f c2 [.createPVC (upPvcSpec a), .createSA (upSaSpec a)]
        else
          (c2, [.createPVC (upPvcSpec a), .createSA (upSaSpec a)],
           .fail ("failed to create ServiceAccount: " ++ e.message))
      | (c2, .ok _) =>
        upPodPhase a f c2 [.createPVC (upPvcSpec a), .createSA (upSaSpec a)]

/-- `main`'s `PersistentPreRunE` (lines 51-54) together with the flag default
(line 62): an empty namespace becomes "dev". -/
def resolveNamespace (ns : String) : String := if ns = "" then "dev" else ns

/-- A full `kdev up` invocation: namespace resolution from `main`, then
`cmdUp`'s `RunE`. -/
def kdevUp (a : UpArgs) (f : Faults) (c : Cluster) : Cluster × List Event × RunResult :=
  upRun { a with ns := resolveNamespace a.ns } f c

/-! ## cmdRM (src/main.go lines 390-428) -/

/-- `cmdRM`'s `RunE` (lines 399-421): validate the name, delete the Pod (any
failure is returned), and only when `--with-pvc` was passed delete the PVC of
the same name as a second independent call (any failure is returned, the Pod
deletion staying in effect). -/
def rmRun (name : String) (withPVC : Bool) (fPod fPvc : Option KErr) (ns : String)
    (c : Cluster) : Cluster × List Event × RunResult :=
  if name = "" then (c, [], .fail "--name is required")
  else
    match doDeletePod fPod c ns name with
    | (c1, .error e) =>
      (c1, [.deletePod ns name], .fail ("failed to delete pod: " ++ e.message))
    | (c1, .ok _) =>
      if withPVC then
        match doDeletePVC fPvc c1 ns name with
        | (c2, .error e) =>
          (c2, [.deletePod ns name, .deletePVC ns name],
           .fail ("failed to delete PVC: " ++ e.message))
        | (c2, .ok _) => (c2, [.deletePod ns name, .deletePVC ns name], .ok)
      else (c1, [.deletePod ns name], .ok)

/-! ## cmdAttach (src/main.go lines 294-346) -/

/-- The exec options of the attach request (lines 315-321,
`corev1.PodExecOptions`). -/
structure PodExecOptions where
  command : List String
  stdin : Bool
  stdout : Bool
  stderr : Bool
  tty : Bool
deriving DecidableEq, Repr

/-- The local streams a remote channel can be bound to (lines 334-336 bind the
process's real standard streams). -/
inductive StdStream
  | stdinOS
  | stdoutOS
  | stderrOS
deriving DecidableEq, Repr

/-- The `remotecommand.StreamOptions` of the attach session (lines 333-338). -/
structure StreamOptions where
  stdin : StdStream
  stdout : StdStream
  stderr : StdStream
  tty : Bool
deriving DecidableEq, Repr

/-- The exec request `cmdAttach` builds (lines 310-321): POST on the pod's
`exec` subresource. -/
structure ExecRequest where
  resource : String
  podName : String
  ns : String
  subresource : String
  options : PodExecOptions
deriving DecidableEq, Repr

/-- `cmdAttach`'s `RunE` (lines 303-339): validate the name, default the shell
to "/bin/bash", build the exec request with command = the chosen shell and
stdin/stdout/stderr/tty all enabled, and stream it bound to the caller's real
standard streams with a TTY. -/
def cmdAttachRun (name shellArg ns : String) :
    Except String (ExecRequest × StreamOptions) :=
  if name = "" then .error "--name is required"
  else
    .ok ({ resource := "pods"
           podName := name
           ns := ns
           subresource := "exec"
           options := { command := [shellRes shellArg]
                        stdin := true
                        stdout := true
                        stderr := true
                        tty := true } },
         { stdin := .stdinOS
           stdout := .stdoutOS
           stderr := .stderrOS
           tty := true })

/-- Whether the ServiceAccount creation step lets `cmdUp` continue: it
succeeded, or it failed with a message containing "already exists" (line 158). -/
def saTolerated : Except KErr Unit → Prop
  | .ok _ => True
  | .error e => goContains e.message "already exists" = true

/-- Both quantity strings of the resources block parse (or are unset), so the
resources block does not panic. -/
def resourcesOK (a : UpArgs) : Bool :=
  (if a.cpu = "" then true else isValidQuantity a.cpu)
    && (if a.memory = "" then true else isValidQuantity a.memory)

/-! ## Lemmas about the key=value parsing loops -/

theorem goSplitN2_shape (s : String) :
    goSplitN2 s = [s] ∨ ∃ k v, goSplitN2 s = [k, v] := by
  unfold goSplitN2
  cases splitFirstEq s.data with
  | none => exact Or.inl rfl
  | some p => exact Or.inr ⟨⟨p.1⟩, ⟨p.2⟩, rfl⟩

theorem getKV_mapUpd_self (m : List (String × String)) (k v : String) :
    getKV (mapUpd m k v) k = some v := by
  induction m with
  | nil => simp [mapUpd, getKV]
  | cons hd tl ih =>
    obtain ⟨k', v'⟩ := hd
    by_cases h : k' = k <;> simp [mapUpd, getKV, h, ih]

theorem getKV_mapUpd_ne (m : List (String × String)) (k' v k : String) (h : k' ≠ k) :
    getKV (mapUpd m k' v) k = getKV m k := by
  induction m with
  | nil => simp [mapUpd, getKV, h]
  | cons hd tl ih =>
    obtain ⟨k2, v2⟩ := hd
    by_cases h2 : k2 = k' <;> by_cases h3 : k2 = k <;>
      simp_all [mapUpd, getKV]

theorem getKV_mapUpd_isSome (m : List (String × String)) (k' v k : String)
    (h : (getKV m k).isSome = true) : (getKV (mapUpd m k' v) k).isSome = true := by
  by_cases he : k' = k
  · subst he; simp [getKV_mapUpd_self]
  · rwa [getKV_mapUpd_ne m k' v k he]

theorem applyKVs_append (l1 l2 : List String) (init : List (String × String)) :
    applyKVs init (l1 ++ l2) = applyKVs (applyKVs init l1) l2 := by
  induction l1 generalizing init with
  | nil => simp [applyKVs]
  | cons e rest ih =>
    rcases goSplitN2_shape e with h | ⟨k, v, h⟩ <;>
      simp [applyKVs, h, ih]

theorem applyKVs_filter (entries : List String) (init : List (String × String)) :
    applyKVs init (entries.filter wellFormedKV) = applyKVs init entries := by
  induction entries generalizing init with
  | nil => rfl
  | cons e rest ih =>
    rcases goSplitN2_shape e with h | ⟨k, v, h⟩ <;>
      simp [applyKVs, wellFormedKV, h, List.filter, ih]

theorem parseEnvs_filter (entries : List String) :
    parseEnvs (entries.filter wellFormedKV) = parseEnvs entries := by
  induction entries with
  | nil => rfl
  | cons e rest ih =>
    rcases goSplitN2_shape e with h | ⟨k, v, h⟩ <;>
      simp [parseEnvs, wellFormedKV, h, List.filter, ih]

theorem parseEnvs_mem (entries : List String) (e : String) (he : e ∈ entries)
    (k v : String) (h : goSplitN2 e = [k, v]) : (k, v) ∈ parseEnvs entries := by
  induction entries with
  | nil => cases he
  | cons e2 rest ih =>
    rcases List.mem_cons.mp he with rfl | hmem
    · simp [parseEnvs, h]
    · rcases goSplitN2_shape e2 with h2 | ⟨k2, v2, h2⟩ <;>
        simp [parseEnvs, h2, ih hmem]

theorem kvKeyOf_ne (e k : String) (h : kvKeyOf e ≠ some k) :
    ∀ v, goSplitN2 e ≠ [k, v] := by
  intro v hEq
  exact h (by simp [kvKeyOf, hEq])

theorem getKV_applyKVs_no_key (entries : List String) (m : List (String × String))
    (k : String) (h : ∀ e ∈ entries, ∀ v, goSplitN2 e ≠ [k, v]) :
    getKV (applyKVs m entries) k = getKV m k := by
  induction entries generalizing m with
  | nil => rfl
  | cons e rest ih =>
    rcases goSplitN2_shape e with h2 | ⟨k2, v2, h2⟩
    · simp only [applyKVs, h2]
      exact ih m (fun e2 hm v => h e2 (List.mem_cons_of_mem e hm) v)
    · have hk2 : k2 ≠ k := by
        intro hEq
        exact h e (List.mem_cons_self e rest) v2 (by rw [h2, hEq])
      simp only [applyKVs, h2]
      rw [ih (mapUpd m k2 v2) (fun e2 hm v => h e2 (List.mem_cons_of_mem e hm) v)]
      exact getKV_mapUpd_ne m k2 v2 k hk2

theorem getKV_applyKVs_isSome (entries : List String) (m : List (String × String))
    (k : String) (h : (getKV m k).isSome = true) :
    (getKV (applyKVs m entries) k).isSome = true := by
  induction entries generalizing m with
  | nil => exact h
  | cons e rest ih =>
    rcases goSplitN2_shape e with h2 | ⟨k2, v2, h2⟩
    · simp only [applyKVs, h2]
      exact ih m h
    · simp only [applyKVs, h2]
      exact ih (mapUpd m k2 v2) (getKV_mapUpd_isSome m k2 v2 k h)

/-! ## Lemmas about the cluster operations and the up run -/

theorem doCreatePVC_ok (f : Option KErr) (c : Cluster) (p : PVCSpec)
    (h : (doCreatePVC f c p).2 = .ok ()) :
    (doCreatePVC f c p).1 = { c with pvcs := c.pvcs ++ [p] } := by
  cases f with
  | some e => simp [doCreatePVC] at h
  | none =>
    by_cases he : pvcKeyExists c p.ns p.name = true <;>
      simp_all [doCreatePVC]

theorem doCreateSA_pvcs (f : Option KErr) (c : Cluster) (s : SASpec) :
    (doCreateSA f c s).1.pvcs = c.pvcs := by
  cases f with
  | some e => rfl
  | none =>
    by_cases he : saKeyExists c s.ns s.name = true <;> simp [doCreateSA, he]

theorem doCreatePod_pvcs (f : Option KErr) (c : Cluster) (p : PodSpec) :
    (doCreatePod f c p).1.pvcs = c.pvcs := by
  cases f with
  | some e => rfl
  | none =>
    by_cases he : podKeyExists c p.ns p.name = true <;> simp [doCreatePod, he]

theorem upPodPhase_pvcs (a : UpArgs) (f : Faults) (c : Cluster) (tr : List Event) :
    (upPodPhase a f c tr).1.pvcs = c.pvcs := by
  unfold upPodPhase
  split
  · rfl
  · rename_i res hr
    split <;> rename_i hc <;>
      · have hp := doCreatePod_pvcs f.pod c (upPod a res)
        rw [hc] at hp
        simpa using hp

theorem doDeletePVC_pods (f : Option KErr) (c : Cluster) (ns name : String) :
    (doDeletePVC f c ns name).1.pods = c.pods := by
  cases f with
  | some e => rfl
  | none =>
    by_cases he : pvcKeyExists c ns name = true <;> simp [doDeletePVC, he]

theorem any_filter_not {α : Type} (l : List α) (p : α → Bool) :
    (l.filter (fun x => !p x)).any p = false := by
  induction l with
  | nil => rfl
  | cons hd tl ih =>
    by_cases h : p hd = true <;> simp [List.filter, h, ih]

theorem podKeyExists_doDeletePod (c : Cluster) (ns name : String) :
    podKeyExists (doDeletePod none c ns name).1 ns name = false := by
  by_cases he : podKeyExists c ns name = true
  · simp only [doDeletePod, he, if_pos]
    exact any_filter_not c.pods (fun p => p.ns = ns && p.name = name)
  · simp only [doDeletePod, he]
    simpa using he

theorem upResources_ok (a : UpArgs) (h : resourcesOK a = true) :
    upResources a = .ok (upResourcesD a) := by
  cases he : upResources a with
  | ok r => simp [upResourcesD, he]
  | error m =>
    exfalso
    unfold resourcesOK at h
    unfold upResources at he
    by_cases hc : a.cpu = "" <;> by_cases hm : a.memory = "" <;>
      simp [hc, hm] at h he <;> simp_all

/-! ## Claim theorems -/

/-- C3 (counterexample): the claim says an absent namespace causes a validation
failure before any cluster call; in fact `up` with an empty namespace succeeds,
issues cluster calls, and creates the StorageClaim in the defaulted namespace
"dev" (flag default, src/main.go lines 51-54 and 62). -/
theorem C3_namespace_default_counterexample :
    (kdevUp (mkUpArgs "mydev" "img" "") noFaults emptyCluster).2.2 = RunResult.ok
    ∧ (kdevUp (mkUpArgs "mydev" "img" "") noFaults emptyCluster).2.1 ≠ []
    ∧ (kdevUp (mkUpArgs "mydev" "img" "") noFaults emptyCluster).1.pvcs
        = [upPvcSpec (mkUpArgs "mydev" "img" "dev")] := by
  refine ⟨by decide, by decide, by decide⟩

/-- C3 (amended): an absent `name` or `image` fails validation with an error
before any cluster call; an absent namespace is not a validation failure — the
default namespace "dev" is applied and the invocation proceeds. -/
theorem C3_validation_amended (a : UpArgs) (f : Faults) (c : Cluster) :
    (a.name = "" → kdevUp a f c = (c, [], .fail "--name is required"))
    ∧ (a.name ≠ "" → a.image = "" → kdevUp a f c = (c, [], .fail "--image is required"))
    ∧ (a.ns = "" → kdevUp a f c = kdevUp { a with ns := "dev" } f c) := by
  refine ⟨fun h => ?_, fun h1 h2 => ?_, fun h => ?_⟩
  · simp [kdevUp, upRun, h]
  · simp [kdevUp, upRun, h1, h2]
  · simp [kdevUp, resolveNamespace, h]

/-- C3 (amended) witness: concrete instances of the three amended clauses. -/
theorem C3_validation_amended_witness :
    kdevUp (mkUpArgs "" "img" "dev") noFaults emptyCluster
        = (emptyCluster, [], .fail "--name is required")
    ∧ kdevUp (mkUpArgs "mydev" "" "dev") noFaults emptyCluster
        = (emptyCluster, [], .fail "--image is required")
    ∧ kdevUp (mkUpArgs "mydev" "img" "") noFaults emptyCluster
        = kdevUp { mkUpArgs "mydev" "img" "" with ns := "dev" } noFaults emptyCluster :=
  ⟨(C3_validation_amended (mkUpArgs "" "img" "dev") noFaults emptyCluster).1 rfl,
   (C3_validation_amended (mkUpArgs "mydev" "" "dev") noFaults emptyCluster).2.1
     (by decide) rfl,
   (C3_validation_amended (mkUpArgs "mydev" "img" "") noFaults emptyCluster).2.2 rfl⟩

/-- C4 (counterexample): the claim says a malformed quantity yields an
`InvalidResourceQuantity` error returned to the caller (not a crash) with no
resource created; in fact a malformed cpu quantity makes `resource.MustParse`
panic (a crash, not a returned error), and by then the StorageClaim has
already been created. -/
theorem C4_quantity_crash_counterexample :
    (kdevUp { mkUpArgs "mydev" "img" "dev" with cpu := "abc" } noFaults
        emptyCluster).2.2 = RunResult.crashed "cannot parse 'abc'"
    ∧ (kdevUp { mkUpArgs "mydev" "img" "dev" with cpu := "abc" } noFaults
        emptyCluster).1.pvcs ≠ [] := by
  refine ⟨by decide, by decide⟩

/-- C4 (amended): a malformed quantity makes `up` crash with a MustParse panic
rather than return an error: a malformed storage size panics before any cluster
call; with a well-formed storage size, a malformed cpu or memory quantity
panics after the StorageClaim and Identity creations were already submitted —
the created StorageClaim remains — and no Workload is ever submitted. -/
theorem C4_quantity_crash_amended (a : UpArgs) (f : Faults) (c : Cluster)
    (hn : a.name ≠ "") (hi : a.image ≠ "") :
    (isValidQuantity (storageSizeOf a) = false →
      upRun a f c = (c, [], .crashed ("cannot parse '" ++ storageSizeOf a ++ "'")))
    ∧ (∀ m, isValidQuantity (storageSizeOf a) = true →
        upResources a = .error m →
        (doCreatePVC f.pvc c (upPvcSpec a)).2 = .ok () →
        saTolerated (doCreateSA f.sa (doCreatePVC f.pvc c (upPvcSpec a)).1 (upSaSpec a)).2 →
        (upRun a f c).2.2 = .crashed m
        ∧ (upRun a f c).2.1 = [.createPVC (upPvcSpec a), .createSA (upSaSpec a)]
        ∧ (upRun a f c).1.pvcs = c.pvcs ++ [upPvcSpec a]) := by
  constructor
  · intro h
    unfold upRun
    rw [if_neg hn, if_neg hi, if_pos h]
  · intro m hs hres hok hTol
    have hbody :
        (upRun a f c).2.2 = .crashed m
        ∧ (upRun a f c).2.1 = [.createPVC (upPvcSpec a), .createSA (upSaSpec a)]
        ∧ (upRun a f c).1.pvcs = c.pvcs ++ [upPvcSpec a] := by
      unfold upRun
      rw [if_neg hn, if_neg hi, if_neg (by simp [hs])]
      split
      · next c1 e hc =>
        rw [hc] at hok
        simp at hok
      · next c1 u hc =>
        have hc1 : c1.pvcs = c.pvcs ++ [upPvcSpec a] := by
          have h2 := doCreatePVC_ok f.pvc c (upPvcSpec a) hok
          rw [hc] at h2
          simp_all
        rw [hc] at hTol
        split
        · next c2 e hsa =>
          rw [hsa] at hTol
          have hg : goContains e.message "already exists" = true := by
            simpa [saTolerated] using hTol
          have hc2 : c2.pvcs = c1.pvcs := by
            have h3 := doCreateSA_pvcs f.sa c1 (upSaSpec a)
            rw [hsa] at h3
            exact h3
          rw [if_pos hg]
          unfold upPodPhase
          rw [hres]
          exact ⟨rfl, rfl, by rw [hc2, hc1]⟩
        · next c2 u2 hsa =>
          have hc2 : c2.pvcs = c1.pvcs := by
            have h3 := doCreateSA_pvcs f.sa c1 (upSaSpec a)
            rw [hsa] at h3
            exact h3
          unfold upPodPhase
          rw [hres]
          exact ⟨rfl, rfl, by rw [hc2, hc1]⟩
    exact hbody

/-- C4 (amended) witness: storage size "20x" panics before any call; cpu "abc"
panics after the StorageClaim and Identity submissions, the StorageClaim
remaining. -/
theorem C4_quantity_crash_amended_witness :
    upRun { mkUpArgs "mydev" "img" "dev" with storageSize := "20x" } noFaults emptyCluster
        = (emptyCluster, [], .crashed "cannot parse '20x'")
    ∧ (upRun { mkUpArgs "mydev" "img" "dev" with cpu := "abc" } noFaults
        emptyCluster).2.2 = .crashed "cannot parse 'abc'"
    ∧ (upRun { mkUpArgs "mydev" "img" "dev" with cpu := "abc" } noFaults
        emptyCluster).2.1
        = [.createPVC (upPvcSpec { mkUpArgs "mydev" "img" "dev" with cpu := "abc" }),
           .createSA (upSaSpec { mkUpArgs "mydev" "img" "dev" with cpu := "abc" })]
    ∧ (upRun { mkUpArgs "mydev" "img" "dev" with cpu := "abc" } noFaults
        emptyCluster).1.pvcs
        = [] ++ [upPvcSpec { mkUpArgs "mydev" "img" "dev" with cpu := "abc" }] := by
  refine ⟨?_, ?_⟩
  · exact (C4_quantity_crash_amended
      { mkUpArgs "mydev" "img" "dev" with storageSize := "20x" } noFaults emptyCluster
      (by decide) (by decide)).1 (by decide)
  · exact (C4_quantity_crash_amended
      { mkUpArgs "mydev" "img" "dev" with cpu := "abc" } noFaults emptyCluster
      (by decide) (by decide)).2 "cannot parse 'abc'" (by decide) (by rfl) (by rfl)
      (by trivial)

/-- C5: entries of the labels/env/nodeSelector lists in which `SplitN` finds no
`=` separator are silently discarded (removing them changes nothing in any of
the three parses), and every well-formed key=value entry in the same list is
still parsed: its pair appears in the env sequence, and the label/selector map
carries its value at its key provided no later entry in the list re-binds the
same key. -/
theorem C5_kv_parsing (entries : List String) (init : List (String × String)) :
    applyKVs init (entries.filter wellFormedKV) = applyKVs init entries
    ∧ parseEnvs (entries.filter wellFormedKV) = parseEnvs entries
    ∧ (∀ e ∈ entries, ∀ k v, goSplitN2 e = [k, v] → (k, v) ∈ parseEnvs entries)
    ∧ (∀ pre e post k v, entries = pre ++ e :: post → goSplitN2 e = [k, v] →
        (∀ e2 ∈ post, kvKeyOf e2 ≠ some k) →
        getKV (applyKVs init entries) k = some v) := by
  refine ⟨applyKVs_filter entries init, parseEnvs_filter entries,
    fun e he k v h => parseEnvs_mem entries e he k v h, ?_⟩
  intro pre e post k v hEq hPart hNoDup
  subst hEq
  rw [applyKVs_append]
  simp only [applyKVs, hPart]
  rw [getKV_applyKVs_no_key post _ k
    (fun e2 he2 => kvKeyOf_ne e2 _ (hNoDup e2 he2))]
  exact getKV_mapUpd_self _ k v

/-- C5 witness: in ["FOO", "a=1"], the malformed "FOO" is discarded without
effect and "a=1" is parsed and included in both the sequence and the map view. -/
theorem C5_kv_parsing_witness :
    applyKVs [] (["FOO", "a=1"].filter wellFormedKV) = applyKVs [] ["FOO", "a=1"]
    ∧ ("a", "1") ∈ parseEnvs ["FOO", "a=1"]
    ∧ getKV (applyKVs [] ["FOO", "a=1"]) "a" = some "1" :=
  ⟨(C5_kv_parsing ["FOO", "a=1"] []).1,
   (C5_kv_parsing ["FOO", "a=1"] []).2.2.1 "a=1" (by decide) "a" "1" (by decide),
   (C5_kv_parsing ["FOO", "a=1"] []).2.2.2 ["FOO"] "a=1" [] "a" "1" rfl (by decide)
     (by decide)⟩

/-- C6: for name="mydev", image="registry.local/img:latest", namespace="dev" and
no optional parameters, the built Workload descriptor has exactly one container
named "dev" with working directory /workspaces and entry shell /bin/bash,
exactly one volume mount whose volume is backed by the StorageClaim "mydev",
service account "dev-vscode", runAsNonRoot, all capabilities dropped and no
privilege escalation; and this exact descriptor is the one the run submits. -/
theorem C6_concrete_workload_descriptor :
    upPod (mkUpArgs "mydev" "registry.local/img:latest" "dev") ⟨[], []⟩ =
      { name := "mydev"
        ns := "dev"
        labels := [("app", "kdev"), ("kdev/name", "mydev")]
        serviceAccountName := "dev-vscode"
        runAsUser := 1000
        runAsGroup := 1000
        fsGroup := 1000
        seccompProfileType := "RuntimeDefault"
        nodeSelector := []
        containers := [{ name := "dev"
                         image := "registry.local/img:latest"
                         workingDir := "/workspaces"
                         command := ["/bin/bash", "-lc", "while true; do sleep 3600; done"]
                         env := []
                         runAsNonRoot := true
                         allowPrivilegeEscalation := false
                         capabilitiesDrop := ["ALL"]
                         readOnlyRootFilesystem := false
                         resources := ⟨[], []⟩
                         volumeMounts := [("work", "/workspaces")] }]
        volumes := [("work", "mydev")] }
    ∧ Event.createPod (upPod (mkUpArgs "mydev" "registry.local/img:latest" "dev") ⟨[], []⟩)
        ∈ (kdevUp (mkUpArgs "mydev" "registry.local/img:latest" "dev") noFaults
            emptyCluster).2.1 := by
  refine ⟨by decide, by decide⟩

/-- C7 (counterexample): the claim says the built Workload's label map contains
app=kdev regardless of the user-supplied label entries; but a user entry
`app=custom` overrides the marker (the user loop writes over the fixed map,
src/main.go lines 169-174), and the overridden descriptor is what gets
submitted. -/
theorem C7_label_override_counterexample :
    getKV (upPod { mkUpArgs "mydev" "img" "dev" with labels := ["app=custom"] }
        ⟨[], []⟩).labels "app" = some "custom"
    ∧ getKV (upPod { mkUpArgs "mydev" "img" "dev" with labels := ["app=custom"] }
        ⟨[], []⟩).labels "app" ≠ some "kdev"
    ∧ Event.createPod (upPod { mkUpArgs "mydev" "img" "dev" with labels := ["app=custom"] }
        ⟨[], []⟩)
        ∈ (kdevUp { mkUpArgs "mydev" "img" "dev" with labels := ["app=custom"] } noFaults
            emptyCluster).2.1 := by
  refine ⟨by decide, by decide, by decide⟩

/-- C7 (amended): the built Workload descriptor's label map always contains the
keys "app" and "kdev/name"; their values are "kdev" and the pod name
respectively unless a user-supplied label entry carries the same key, in which
case the user entry overrides the fixed value. -/
theorem C7_fixed_labels_amended (name : String) (labels : List String) :
    (getKV (podLabelsOf name labels) "app").isSome = true
    ∧ (getKV (podLabelsOf name labels) "kdev/name").isSome = true
    ∧ ((∀ e ∈ labels, kvKeyOf e ≠ some "app") →
        getKV (podLabelsOf name labels) "app" = some "kdev")
    ∧ ((∀ e ∈ labels, kvKeyOf e ≠ some "kdev/name") →
        getKV (podLabelsOf name labels) "kdev/name" = some name) := by
  refine ⟨?_, ?_, fun h => ?_, fun h => ?_⟩
  · exact getKV_applyKVs_isSome labels _ "app" (by simp [getKV])
  · exact getKV_applyKVs_isSome labels _ "kdev/name" (by simp [getKV])
  · rw [podLabelsOf,
      getKV_applyKVs_no_key labels _ "app" (fun e he => kvKeyOf_ne e _ (h e he))]
    simp [getKV]
  · rw [podLabelsOf,
      getKV_applyKVs_no_key labels _ "kdev/name" (fun e he => kvKeyOf_ne e _ (h e he))]
    simp [getKV]

/-- C7 (amended) witness: with a user label that touches neither fixed key, both
fixed labels are present with their fixed values. -/
theorem C7_fixed_labels_amended_witness :
    getKV (podLabelsOf "mydev" ["team=infra"]) "app" = some "kdev"
    ∧ getKV (podLabelsOf "mydev" ["team=infra"]) "kdev/name" = some "mydev" :=
  ⟨(C7_fixed_labels_amended "mydev" ["team=infra"]).2.2.1 (by decide),
   (C7_fixed_labels_amended "mydev" ["team=infra"]).2.2.2 (by decide)⟩

/-- C8: `rm` with storage deletion requested deletes the Workload first; the
StorageClaim of the same name is deleted by a second independent call, and when
the Workload deletion succeeds but the StorageClaim deletion fails, the command
returns the storage error while the Workload deletion remains in effect. -/
theorem C8_rm_storage_failure (c : Cluster) (name ns : String) (fPvc : Option KErr)
    (e : KErr) (hn : name ≠ "")
    (hpod : podKeyExists c ns name = true)
    (hfail : (doDeletePVC fPvc (doDeletePod none c ns name).1 ns name).2 = .error e) :
    rmRun name true none fPvc ns c =
      ((doDeletePVC fPvc (doDeletePod none c ns name).1 ns name).1,
       [.deletePod ns name, .deletePVC ns name],
       .fail ("failed to delete PVC: " ++ e.message))
    ∧ podKeyExists (rmRun name true none fPvc ns c).1 ns name = false := by
  have hdel : doDeletePod none c ns name
      = ({ c with pods := c.pods.filter (fun p => !(p.ns = ns && p.name = name)) },
         .ok ()) := by
    simp [doDeletePod, hpod]
  have hgone := podKeyExists_doDeletePod c ns name
  rw [hdel] at hfail hgone
  have hmain : rmRun name true none fPvc ns c =
      ((doDeletePVC fPvc
          { c with pods := c.pods.filter (fun p => !(p.ns = ns && p.name = name)) }
          ns name).1,
       [.deletePod ns name, .deletePVC ns name],
       .fail ("failed to delete PVC: " ++ e.message)) := by
    unfold rmRun
    rw [if_neg hn, hdel]
    simp only [if_true]
    split
    · next c2 e2 hd2 =>
      rw [hd2] at hfail
      simp at hfail
      subst hfail
      rw [hd2]
    · next c2 u2 hd2 =>
      rw [hd2] at hfail
      simp at hfail
  refine ⟨by rw [hmain, hdel], ?_⟩
  rw [hmain]
  have hpods := doDeletePVC_pods fPvc
    { c with pods := c.pods.filter (fun p => !(p.ns = ns && p.name = name)) } ns name
  unfold podKeyExists at hgone ⊢
  rw [hpods]
  simpa using hgone

/-- C8 witness: a cluster holding only the Workload "mydev"; `rm --with-pvc`
deletes the Workload, then the StorageClaim deletion fails with NotFound; the
command reports the storage failure and the Workload stays deleted. -/
theorem C8_rm_storage_failure_witness :
    rmRun "mydev" true none none "dev"
        ⟨[], [], [upPod (mkUpArgs "mydev" "img" "dev") ⟨[], []⟩]⟩
      = (⟨[], [], []⟩, [.deletePod "dev" "mydev", .deletePVC "dev" "mydev"],
         .fail ("failed to delete PVC: "
           ++ (KErr.notFound "persistentvolumeclaims" "mydev").message))
    ∧ podKeyExists (rmRun "mydev" true none none "dev"
        ⟨[], [], [upPod (mkUpArgs "mydev" "img" "dev") ⟨[], []⟩]⟩).1 "dev" "mydev"
        = false :=
  ⟨((C8_rm_storage_failure
      ⟨[], [], [upPod (mkUpArgs "mydev" "img" "dev") ⟨[], []⟩]⟩ "mydev" "dev" none
      (KErr.notFound "persistentvolumeclaims" "mydev")
      (by decide) (by decide) (by rfl)).1).trans (by decide),
   (C8_rm_storage_failure
      ⟨[], [], [upPod (mkUpArgs "mydev" "img" "dev") ⟨[], []⟩]⟩ "mydev" "dev" none
      (KErr.notFound "persistentvolumeclaims" "mydev")
      (by decide) (by decide) (by rfl)).2⟩

/-- C9: the attach execution request carries command = the chosen shell
(defaulting to /bin/bash when the shell parameter is unset), tty = true and
stdin, stdout, stderr all enabled, and the stream options bind the caller's
real standard input, output and error streams with a TTY. -/
theorem C9_attach_request (name shellArg ns : String) (h : name ≠ "") :
    cmdAttachRun name shellArg ns =
      .ok ({ resource := "pods"
             podName := name
             ns := ns
             subresource := "exec"
             options := { command := [if shellArg = "" then "/bin/bash" else shellArg]
                          stdin := true
                          stdout := true
                          stderr := true
                          tty := true } },
           { stdin := .stdinOS
             stdout := .stdoutOS
             stderr := .stderrOS
             tty := true }) := by
  simp [cmdAttachRun, shellRes, h]

/-- C9 witness: a concrete attach with the shell parameter unset. -/
theorem C9_attach_request_witness :
    cmdAttachRun "mydev" "" "dev" =
      .ok (⟨"pods", "mydev", "dev", "exec", ⟨["/bin/bash"], true, true, true, true⟩⟩,
           ⟨.stdinOS, .stdoutOS, .stderrOS, true⟩) :=
  (C9_attach_request "mydev" "" "dev" (by decide)).trans rfl

/-- C10: every Workload built by `up` has entrypoint
[shell, "-lc", "while true; do sleep 3600; done"], the shell defaulting to
/bin/bash; and the attach command executes exactly the same resolved shell for
the same shell parameter. -/
theorem C10_entrypoint_shell (a : UpArgs) (res : Resources) (n ns2 : String)
    (hn : n ≠ "") :
    (upPod a res).containers.map (fun ct => ct.command)
        = [[shellOf a, "-lc", "while true; do sleep 3600; done"]]
    ∧ shellOf a = (if a.shell = "" then "/bin/bash" else a.shell)
    ∧ (cmdAttachRun n a.shell ns2).map (fun r => r.1.options.command)
        = .ok [shellOf a] := by
  refine ⟨by simp [upPod], rfl, ?_⟩
  simp [cmdAttachRun, hn, shellOf, Except.map]

/-- C1: with valid name/image and well-formed quantities, `up` submits creations
in the fixed order StorageClaim, Identity, Workload: any StorageClaim creation
failure (including "already exists") aborts the sequence with an error before
the Identity or Workload is submitted; an Identity creation failure whose
message contains "already exists" is swallowed and the sequence continues to
the Workload; any other Identity creation failure, and any Workload creation
failure, is returned as the invocation's error. -/
theorem C1_up_submission_policy (a : UpArgs) (f : Faults) (c : Cluster)
    (hn : a.name ≠ "") (hi : a.image ≠ "")
    (hs : isValidQuantity (storageSizeOf a) = true)
    (hr : resourcesOK a = true) :
    upRun a f c =
      match doCreatePVC f.pvc c (upPvcSpec a) with
      | (c1, .error e) =>
        (c1, [.createPVC (upPvcSpec a)],
         .fail ("failed to create PVC: " ++ e.message))
      | (c1, .ok _) =>
        match doCreateSA f.sa c1 (upSaSpec a) with
        | (c2, .error e) =>
          if goContains e.message "already exists" then
            match doCreatePod f.pod c2 (upPod a (upResourcesD a)) with
            | (c3, .error e2) =>
              (c3, [.createPVC (upPvcSpec a), .createSA (upSaSpec a),
                    .createPod (upPod a (upResourcesD a))],
               .fail ("failed to create Pod: " ++ e2.message))
            | (c3, .ok _) =>
              (c3, [.createPVC (upPvcSpec a), .createSA (upSaSpec a),
                    .createPod (upPod a (upResourcesD a))],
               .ok)
          else
            (c2, [.createPVC (upPvcSpec a), .createSA (upSaSpec a)],
             .fail ("failed to create ServiceAccount: " ++ e.message))
        | (c2, .ok _) =>
          match doCreatePod f.pod c2 (upPod a (upResourcesD a)) with
          | (c3, .error e2) =>
            (c3, [.createPVC (upPvcSpec a), .createSA (upSaSpec a),
                  .createPod (upPod a (upResourcesD a))],
             .fail ("failed to create Pod: " ++ e2.message))
          | (c3, .ok _) =>
            (c3, [.createPVC (upPvcSpec a), .createSA (upSaSpec a),
                  .createPod (upPod a (upResourcesD a))],
             .ok) := by
  have hres := upResources_ok a hr
  unfold upRun
  rw [if_neg hn, if_neg hi, if_neg (by simp [hs])]
  split
  · rfl
  · next c1 u hc =>
    split
    · next c2 e hsa =>
      by_cases hg : goContains e.message "already exists" = true
      · simp only [hg, if_true]
        simp only [upPodPhase, hres]
        split <;> rfl
      · simp only [if_neg hg]
    · next c2 u2 hsa =>
      simp only [upPodPhase, hres]
      split <;> rfl

/-- C1 witness: the Identity "dev-vscode" already exists; the StorageClaim is
created, the Identity conflict is swallowed, and the Workload is created. -/
theorem C1_up_submission_policy_witness :
    upRun (mkUpArgs "mydev" "img" "dev") noFaults ⟨[], [⟨"dev-vscode", "dev"⟩], []⟩
      = (⟨[upPvcSpec (mkUpArgs "mydev" "img" "dev")], [⟨"dev-vscode", "dev"⟩],
          [upPod (mkUpArgs "mydev" "img" "dev") ⟨[], []⟩]⟩,
         [.createPVC (upPvcSpec (mkUpArgs "mydev" "img" "dev")),
          .createSA (upSaSpec (mkUpArgs "mydev" "img" "dev")),
          .createPod (upPod (mkUpArgs "mydev" "img" "dev") ⟨[], []⟩)],
         .ok) :=
  (C1_up_submission_policy (mkUpArgs "mydev" "img" "dev") noFaults
      ⟨[], [⟨"dev-vscode", "dev"⟩], []⟩
      (by decide) (by decide) (by decide) (by decide)).trans (by decide)

/-- C2: whenever the StorageClaim creation succeeds, `up` never deletes or rolls
it back: whatever the later Identity and Workload steps do (succeed, fail, or
panic), the created StorageClaim is appended to the cluster state and remains
there when `up` returns. -/
theorem C2_no_rollback (a : UpArgs) (f : Faults) (c : Cluster)
    (hn : a.name ≠ "") (hi : a.image ≠ "")
    (hs : isValidQuantity (storageSizeOf a) = true)
    (hok : (doCreatePVC f.pvc c (upPvcSpec a)).2 = .ok ()) :
    (upRun a f c).1.pvcs = c.pvcs ++ [upPvcSpec a]
    ∧ upPvcSpec a ∈ (upRun a f c).1.pvcs := by
  have hmain : (upRun a f c).1.pvcs = c.pvcs ++ [upPvcSpec a] := by
    unfold upRun
    rw [if_neg hn, if_neg hi, if_neg (by simp [hs])]
    split
    · next c1 e hc =>
      rw [hc] at hok
      simp at hok
    · next c1 u hc =>
      have hc1 : c1.pvcs = c.pvcs ++ [upPvcSpec a] := by
        have h2 := doCreatePVC_ok f.pvc c (upPvcSpec a) hok
        rw [hc] at h2
        simp_all
      split
      · next c2 e hsa =>
        have hc2 : c2.pvcs = c1.pvcs := by
          have h3 := doCreateSA_pvcs f.sa c1 (upSaSpec a)
          rw [hsa] at h3
          exact h3
        by_cases hg : goContains e.message "already exists" = true <;>
          simp [hg, upPodPhase_pvcs, hc2, hc1]
      · next c2 u2 hsa =>
        have hc2 : c2.pvcs = c1.pvcs := by
          have h3 := doCreateSA_pvcs f.sa c1 (upSaSpec a)
          rw [hsa] at h3
          exact h3
        rw [upPodPhase_pvcs, hc2, hc1]
  exact ⟨hmain, by rw [hmain]; simp⟩

/-- C2 witness: the Workload name already exists, so the Pod step fails after
the StorageClaim was created; the StorageClaim is in the final state. -/
theorem C2_no_rollback_witness :
    (upRun (mkUpArgs "mydev" "img" "dev") noFaults
        ⟨[], [], [upPod (mkUpArgs "mydev" "img" "dev") ⟨[], []⟩]⟩).1.pvcs
      = [] ++ [upPvcSpec (mkUpArgs "mydev" "img" "dev")]
    ∧ upPvcSpec (mkUpArgs "mydev" "img" "dev")
        ∈ (upRun (mkUpArgs "mydev" "img" "dev") noFaults
            ⟨[], [], [upPod (mkUpArgs "mydev" "img" "dev") ⟨[], []⟩]⟩).1.pvcs :=
  C2_no_rollback (mkUpArgs "mydev" "img" "dev") noFaults
    ⟨[], [], [upPod (mkUpArgs "mydev" "img" "dev") ⟨[], []⟩]⟩
    (by decide) (by decide) (by decide) (by rfl)

/-- C10 witness: with the shell parameter unset, the workload idles in /bin/bash
and attach executes /bin/bash. -/
theorem C10_entrypoint_shell_witness :
    (upPod (mkUpArgs "mydev" "img" "dev") ⟨[], []⟩).containers.map (fun ct => ct.command)
        = [["/bin/bash", "-lc", "while true; do sleep 3600; done"]]
    ∧ (cmdAttachRun "mydev" "" "dev").map (fun r => r.1.options.command)
        = .ok ["/bin/bash"] :=
  ⟨(C10_entrypoint_shell (mkUpArgs "mydev" "img" "dev") ⟨[], []⟩ "mydev" "dev"
      (by decide)).1,
   (C10_entrypoint_shell (mkUpArgs "mydev" "img" "dev") ⟨[], []⟩ "mydev" "dev"
      (by decide)).2.2⟩

end Kdev
